import Mathlib

/-!
Verification development for the session layer of citadel_agent.py.

The embedding below mirrors the source file closely:
- a pydantic model becomes a structure of its fields;
- the Azure client object becomes a record of the three constructor arguments
  passed at lines 66-70;
- os.getenv lookups become an Env record of four Option String fields;
- a raised exception becomes an Except error value (the raise sites in the
  source occur before any mutation of the object, so carrying the unchanged
  input state in the error is faithful);
- the remote completion call becomes an oracle parameter mapping the
  deployment name and the wire-level role and content pairs to either a reply
  text or a failure description, standing for str of the caught exception.
-/

/-- Chat message model, lines 17-20 of the source: a role string and a content
string. The Field description mentions system, user and assistant but pydantic
enforces only that both fields are strings. -/
structure Message where
  role : String
  content : String
deriving Repr, DecidableEq

/-- Configuration value object, lines 22-27: four required string fields. -/
structure AzureAIConfig where
  api_key : String
  api_base : String
  api_version : String
  deployment_name : String
deriving Repr, DecidableEq

/-- The client handle built by the AsyncAzureOpenAI constructor at lines 66-70,
recording the three arguments it receives. -/
structure ClientHandle where
  api_key : String
  api_version : String
  azure_endpoint : String
deriving Repr, DecidableEq

/-- Agent state, lines 30-34: chat history, optional config, optional client. -/
structure EchoAgent where
  messages : List Message
  config : Option AzureAIConfig
  client : Option ClientHandle
deriving Repr, DecidableEq

/-- The execution environment seen by the four os.getenv calls at lines 40-43:
none models an unset variable. -/
structure Env where
  apiKey : Option String
  apiBase : Option String
  apiVersion : Option String
  deploymentName : Option String
deriving Repr, DecidableEq

/-- Python truthiness test used at lines 47-53: `if not v` holds when the
lookup returned None and also when it returned the empty string. -/
def pyFalsy : Option String → Bool
  | none => true
  | some s => s == ""

/-- The missing_vars list built at lines 46-54, in source order. -/
def missingVars (env : Env) : List String :=
  (if pyFalsy env.apiKey then ["AZURE_OPENAI_API_KEY"] else []) ++
  (if pyFalsy env.apiBase then ["AZURE_OPENAI_API_BASE"] else []) ++
  (if pyFalsy env.apiVersion then ["AZURE_OPENAI_API_VERSION"] else []) ++
  (if pyFalsy env.deploymentName then ["AZURE_OPENAI_DEPLOYMENT_NAME"] else [])

/-- The ValueError message raised at line 57. -/
def missingMsg (vars : List String) : String :=
  "Missing required environment variables: " ++ String.intercalate ", " vars ++
    ". Please check your .env file."

/-- The config built from the environment at lines 59-64; reached only when no
lookup was falsy, so the getD defaults are never observed. -/
def envConfig (env : Env) : AzureAIConfig :=
  AzureAIConfig.mk (env.apiKey.getD "") (env.apiBase.getD "") (env.apiVersion.getD "")
    (env.deploymentName.getD "")

/-- The AsyncAzureOpenAI handle construction at lines 66-70. -/
def clientOf (cfg : AzureAIConfig) : ClientHandle :=
  ClientHandle.mk cfg.api_key cfg.api_version cfg.api_base

/-- The initialization method, lines 36-70. An error value models the
ValueError raised at line 57; that raise precedes every assignment to self, so
the Python object is unchanged whenever the error is produced. -/
def initAgent (env : Env) (a : EchoAgent) : Except String EchoAgent :=
  match a.config with
  | some cfg => Except.ok (EchoAgent.mk a.messages (some cfg) (some (clientOf cfg)))
  | none =>
    if (missingVars env).isEmpty then
      Except.ok (EchoAgent.mk a.messages (some (envConfig env))
        (some (clientOf (envConfig env))))
    else
      Except.error (missingMsg (missingVars env))

/-- add_message, lines 72-74: an unconditional list append; no validation of
the role argument is performed anywhere. -/
def add_message (a : EchoAgent) (role content : String) : EchoAgent :=
  EchoAgent.mk (a.messages ++ [Message.mk role content]) a.config a.client

/-- The remote completion endpoint, abstracted: it receives the deployment
name and the wire-level role and content pairs and yields either a reply text
or a failure description, the str of the exception caught at lines 89 and
114. -/
abbrev Oracle := String → List (String × String) → Except String String

/-- Wire serialization of a list of message objects into role and content
pairs; a Message carries exactly those two fields. -/
def formatted (msgs : List Message) : List (String × String) :=
  msgs.map (fun m => (m.role, m.content))

/-- The request body of echo_message, line 82: self.messages, passed as the
message objects themselves. -/
def echoRequestBody (a : EchoAgent) : List Message :=
  a.messages

/-- The request body of process_with_ai, line 102: the dict conversion of
self.messages. -/
def processRequestBody (a : EchoAgent) : List (String × String) :=
  a.messages.map (fun m => (m.role, m.content))

/-- The str of the AttributeError hit when self.client is None at the call
sites, lines 80 and 105: Python evaluates the attribute chain on the client
before the keyword arguments, inside the try block. -/
def noneClientErr : String :=
  "AttributeError: NoneType object has no attribute chat"

/-- The str of the AttributeError hit when self.config is None while the model
keyword argument evaluates self.config.deployment_name, lines 81 and 106. -/
def noneConfigErr : String :=
  "AttributeError: NoneType object has no attribute deployment_name"

/-- The error string built at lines 90 and 115. -/
def errText (e : String) : String :=
  "Error communicating with Azure OpenAI API: " ++ e

/-- The guarded completion call of lines 80-83 and 105-108: a None client, a
None config, or an oracle failure each surface as the error branch, all caught
by the blanket except handler of the caller. -/
def attemptCall (o : Oracle) (a1 : EchoAgent) (body : List (String × String)) :
    Except String String :=
  match a1.client with
  | none => Except.error noneClientErr
  | some _ =>
    match a1.config with
    | none => Except.error noneConfigErr
    | some cfg => o cfg.deployment_name body

/-- echo_message, lines 76-92. Total: every failure of the remote call is
caught at line 89 and absorbed into the transcript. -/
def echo_message (o : Oracle) (a : EchoAgent) (content : String) :
    EchoAgent × String :=
  let a1 := add_message a "user" content
  match attemptCall o a1 (formatted (echoRequestBody a1)) with
  | Except.ok reply => (add_message a1 "assistant" reply, reply)
  | Except.error e => (add_message a1 "system" (errText e), errText e)

/-- process_with_ai, lines 94-117. An error value models the ValueError
propagating out of the initialization call at line 97; it carries the state of
the object at that point, which is the unchanged input state. -/
def process_with_ai (env : Env) (o : Oracle) (a : EchoAgent) (content : String) :
    Except (String × EchoAgent) (EchoAgent × String) :=
  match (match a.client with
         | some _ => Except.ok a
         | none => initAgent env a) with
  | Except.error e => Except.error (e, a)
  | Except.ok a0 =>
    let a1 := add_message a0 "user" content
    match attemptCall o a1 (processRequestBody a1) with
    | Except.ok reply => Except.ok (add_message a1 "assistant" reply, reply)
    | Except.error e => Except.ok (add_message a1 "system" (errText e), errText e)

/-- get_chat_history, lines 119-121. -/
def get_chat_history (a : EchoAgent) : List (String × String) :=
  a.messages.map (fun m => (m.role, m.content))

/-- The agent state reached by a process_with_ai call whether it returns or
raises. -/
def stateOf : Except (String × EchoAgent) (EchoAgent × String) → EchoAgent
  | Except.ok p => p.1
  | Except.error p => p.2

/-- The agent state reached by an initialization call whether it returns or
raises: the raise at line 57 precedes every assignment, so the object is
unchanged on error. -/
def initStateOf (env : Env) (a : EchoAgent) : EchoAgent :=
  match initAgent env a with
  | Except.ok b => b
  | Except.error _ => a

/-- Fold of add_message over a list of role and content pairs. -/
def appendAll (a : EchoAgent) : List (String × String) → EchoAgent
  | [] => a
  | p :: ps => appendAll (add_message a p.1 p.2) ps

/-- Trace of agent states across repeated process_with_ai calls: the input
state followed by the state after each call. -/
def runStates (env : Env) (a : EchoAgent) : List (Oracle × String) → List EchoAgent
  | [] => [a]
  | s :: rest => a :: runStates env (stateOf (process_with_ai env s.1 a s.2)) rest

/-! ## Helper lemmas -/

lemma add_message_messages (a : EchoAgent) (r c : String) :
    (add_message a r c).messages = a.messages ++ [Message.mk r c] := rfl

lemma add_message_config (a : EchoAgent) (r c : String) :
    (add_message a r c).config = a.config := rfl

lemma add_message_client (a : EchoAgent) (r c : String) :
    (add_message a r c).client = a.client := rfl

lemma initAgent_ok_messages (env : Env) (a b : EchoAgent)
    (h : initAgent env a = Except.ok b) : b.messages = a.messages := by
  unfold initAgent at h
  split at h
  · cases h
    rfl
  · split at h
    · cases h
      rfl
    · cases h

lemma initStateOf_messages (env : Env) (a : EchoAgent) :
    (initStateOf env a).messages = a.messages := by
  unfold initStateOf
  cases h : initAgent env a with
  | ok b => exact initAgent_ok_messages env a b h
  | error e => rfl

lemma prefix_two (l : List Message) (x y : Message) :
    l <+: l ++ [x] ++ [y] := ⟨[x] ++ [y], by simp⟩

/-! ## Claim C1 -/

/-- Claim C1 as stated is false: add_message performs no role validation, so a
call with the role banana, which is outside the closed set, does not fail and
the transcript grows from length zero to length one, holding the invalid
message. -/
theorem C1_counterexample :
    ("banana" ≠ "system" ∧ "banana" ≠ "user" ∧ "banana" ≠ "assistant") ∧
    (add_message (EchoAgent.mk [] none none) "banana" "hi").messages.length ≠ 0 ∧
    (add_message (EchoAgent.mk [] none none) "banana" "hi").messages =
      [Message.mk "banana" "hi"] := by
  refine ⟨⟨?_, ?_, ?_⟩, ?_, rfl⟩ <;> decide

/-- Claim C1 (amended): a call to add_message with a role outside the closed
set of system, user and assistant does not fail; no validation exists, the
message is appended as given and the transcript length grows by exactly one. -/
theorem C1_no_role_validation (a : EchoAgent) (role content : String)
    (hrole : role ≠ "system" ∧ role ≠ "user" ∧ role ≠ "assistant") :
    (add_message a role content).messages = a.messages ++ [Message.mk role content] ∧
    (add_message a role content).messages.length = a.messages.length + 1 := by
  refine ⟨rfl, ?_⟩
  simp [add_message]

/-- Witness for C1_no_role_validation at the concrete role banana. -/
theorem C1_no_role_validation_witness :
    (add_message (EchoAgent.mk [] none none) "banana" "hi").messages =
      [] ++ [Message.mk "banana" "hi"] ∧
    (add_message (EchoAgent.mk [] none none) "banana" "hi").messages.length =
      List.length ([] : List Message) + 1 :=
  C1_no_role_validation (EchoAgent.mk [] none none) "banana" "hi"
    ⟨by decide, by decide, by decide⟩

/-! ## Claim C10 -/

/-- Claim C10: echo_message on a session whose client was never initialized
does not raise: the AttributeError from the absent client is caught by the
blanket handler, the call appends the user message and then a system error
message whose text embeds the failure description, and returns that text. -/
theorem C10_uninitialized_submit_absorbed (o : Oracle) (a : EchoAgent)
    (content : String) (hcl : a.client = none) :
    echo_message o a content =
      (EchoAgent.mk
        (a.messages ++ [Message.mk "user" content,
          Message.mk "system" (errText noneClientErr)]) a.config a.client,
       errText noneClientErr) := by
  unfold echo_message attemptCall
  simp [add_message_client, hcl, add_message, List.append_assoc]

/-- Witness for C10_uninitialized_submit_absorbed on a fresh agent. -/
theorem C10_uninitialized_submit_absorbed_witness :
    echo_message (fun _ _ => Except.ok "reply") (EchoAgent.mk [] none none) "hi" =
      (EchoAgent.mk
        ([] ++ [Message.mk "user" "hi",
          Message.mk "system" (errText noneClientErr)]) none none,
       errText noneClientErr) :=
  C10_uninitialized_submit_absorbed (fun _ _ => Except.ok "reply")
    (EchoAgent.mk [] none none) "hi" rfl

/-! ## Claim C8 -/

/-- Claim C8: when auto-initialization inside process_with_ai fails for a
missing configuration, the error is raised to the caller synchronously, the
remote oracle is never consulted (the result does not depend on o), and the
carried state is exactly the input state: no message was appended. -/
theorem C8_config_error_before_everything (env : Env) (o : Oracle)
    (a : EchoAgent) (content : String)
    (hcl : a.client = none) (hcf : a.config = none)
    (hm : missingVars env ≠ []) :
    process_with_ai env o a content =
      Except.error (missingMsg (missingVars env), a) := by
  unfold process_with_ai initAgent
  have hE : (missingVars env).isEmpty = false := by
    simp [List.isEmpty_iff, hm]
  simp [hcl, hcf, hE]

/-- Witness for C8_config_error_before_everything with an empty environment. -/
theorem C8_config_error_before_everything_witness :
    process_with_ai (Env.mk none none none none) (fun _ _ => Except.ok "reply")
      (EchoAgent.mk [] none none) "hi" =
      Except.error
        (missingMsg (missingVars (Env.mk none none none none)),
         EchoAgent.mk [] none none) :=
  C8_config_error_before_everything (Env.mk none none none none)
    (fun _ _ => Except.ok "reply") (EchoAgent.mk [] none none) "hi"
    rfl rfl (by decide)

/-! ## Claim C3 -/

/-- Claim C3: when the remote call fails during a submit on an initialized
session, neither entry point raises: each appends exactly the user message and
then a system message whose text is the fixed prefix followed by the failure
description, and returns that text. -/
theorem C3_remote_failure_absorbed (env : Env) (o : Oracle) (a : EchoAgent)
    (h : ClientHandle) (cfg : AzureAIConfig) (content err : String)
    (hcl : a.client = some h) (hcf : a.config = some cfg)
    (ho : o cfg.deployment_name
      (formatted (a.messages ++ [Message.mk "user" content])) = Except.error err) :
    echo_message o a content =
      (EchoAgent.mk
        (a.messages ++ [Message.mk "user" content, Message.mk "system" (errText err)])
        a.config a.client,
       errText err) ∧
    process_with_ai env o a content =
      Except.ok
        (EchoAgent.mk
          (a.messages ++ [Message.mk "user" content, Message.mk "system" (errText err)])
          a.config a.client,
         errText err) ∧
    errText err = "Error communicating with Azure OpenAI API: " ++ err := by
  refine ⟨?_, ?_, rfl⟩
  · unfold echo_message attemptCall
    simp [add_message_client, add_message_config, hcl, hcf, echoRequestBody,
      add_message_messages, ho, add_message, List.append_assoc]
  · have ho2 : o cfg.deployment_name
        ((a.messages ++ [Message.mk "user" content]).map
          (fun m => (m.role, m.content))) = Except.error err := ho
    simp only [List.map_append, List.map_cons, List.map_nil] at ho2
    unfold process_with_ai attemptCall
    simp [hcl, add_message_client, add_message_config, hcf, processRequestBody,
      add_message, ho2, List.append_assoc]

/-- Witness for C3_remote_failure_absorbed on a concrete initialized agent
with an oracle that always fails. -/
theorem C3_remote_failure_absorbed_witness :
    echo_message (fun _ _ => Except.error "boom")
      (EchoAgent.mk [] (some (AzureAIConfig.mk "k" "b" "v" "d"))
        (some (ClientHandle.mk "k" "v" "b"))) "hello" =
      (EchoAgent.mk
        ([] ++ [Message.mk "user" "hello", Message.mk "system" (errText "boom")])
        (some (AzureAIConfig.mk "k" "b" "v" "d"))
        (some (ClientHandle.mk "k" "v" "b")),
       errText "boom") ∧
    process_with_ai (Env.mk none none none none) (fun _ _ => Except.error "boom")
      (EchoAgent.mk [] (some (AzureAIConfig.mk "k" "b" "v" "d"))
        (some (ClientHandle.mk "k" "v" "b"))) "hello" =
      Except.ok
        (EchoAgent.mk
          ([] ++ [Message.mk "user" "hello", Message.mk "system" (errText "boom")])
          (some (AzureAIConfig.mk "k" "b" "v" "d"))
          (some (ClientHandle.mk "k" "v" "b")),
         errText "boom") ∧
    errText "boom" = "Error communicating with Azure OpenAI API: " ++ "boom" :=
  C3_remote_failure_absorbed (Env.mk none none none none)
    (fun _ _ => Except.error "boom")
    (EchoAgent.mk [] (some (AzureAIConfig.mk "k" "b" "v" "d"))
      (some (ClientHandle.mk "k" "v" "b")))
    (ClientHandle.mk "k" "v" "b") (AzureAIConfig.mk "k" "b" "v" "d")
    "hello" "boom" rfl rfl rfl

/-! ## Claim C4 -/

/-- Claim C4: when the remote call succeeds during a submit on an initialized
session, each entry point appends exactly the user message and then an
assistant message holding the extracted reply, and returns the reply. -/
theorem C4_success_two_messages (env : Env) (o : Oracle) (a : EchoAgent)
    (h : ClientHandle) (cfg : AzureAIConfig) (content reply : String)
    (hcl : a.client = some h) (hcf : a.config = some cfg)
    (ho : o cfg.deployment_name
      (formatted (a.messages ++ [Message.mk "user" content])) = Except.ok reply) :
    echo_message o a content =
      (EchoAgent.mk
        (a.messages ++ [Message.mk "user" content, Message.mk "assistant" reply])
        a.config a.client,
       reply) ∧
    process_with_ai env o a content =
      Except.ok
        (EchoAgent.mk
          (a.messages ++ [Message.mk "user" content, Message.mk "assistant" reply])
          a.config a.client,
         reply) := by
  constructor
  · unfold echo_message attemptCall
    simp [add_message_client, add_message_config, hcl, hcf, echoRequestBody,
      add_message_messages, ho, add_message, List.append_assoc]
  · have ho2 : o cfg.deployment_name
        ((a.messages ++ [Message.mk "user" content]).map
          (fun m => (m.role, m.content))) = Except.ok reply := ho
    simp only [List.map_append, List.map_cons, List.map_nil] at ho2
    unfold process_with_ai attemptCall
    simp [hcl, add_message_client, add_message_config, hcf, processRequestBody,
      add_message, ho2, List.append_assoc]

/-- Witness for C4_success_two_messages on a concrete initialized agent with
an oracle that always replies. -/
theorem C4_success_two_messages_witness :
    echo_message (fun _ _ => Except.ok "pong")
      (EchoAgent.mk [] (some (AzureAIConfig.mk "k" "b" "v" "d"))
        (some (ClientHandle.mk "k" "v" "b"))) "hello" =
      (EchoAgent.mk
        ([] ++ [Message.mk "user" "hello", Message.mk "assistant" "pong"])
        (some (AzureAIConfig.mk "k" "b" "v" "d"))
        (some (ClientHandle.mk "k" "v" "b")),
       "pong") ∧
    process_with_ai (Env.mk none none none none) (fun _ _ => Except.ok "pong")
      (EchoAgent.mk [] (some (AzureAIConfig.mk "k" "b" "v" "d"))
        (some (ClientHandle.mk "k" "v" "b"))) "hello" =
      Except.ok
        (EchoAgent.mk
          ([] ++ [Message.mk "user" "hello", Message.mk "assistant" "pong"])
          (some (AzureAIConfig.mk "k" "b" "v" "d"))
          (some (ClientHandle.mk "k" "v" "b")),
         "pong") :=
  C4_success_two_messages (Env.mk none none none none)
    (fun _ _ => Except.ok "pong")
    (EchoAgent.mk [] (some (AzureAIConfig.mk "k" "b" "v" "d"))
      (some (ClientHandle.mk "k" "v" "b")))
    (ClientHandle.mk "k" "v" "b") (AzureAIConfig.mk "k" "b" "v" "d")
    "hello" "pong" rfl rfl rfl

/-! ## Claim C5 -/

/-- Claim C5: on a session whose client is already initialized, the two entry
points behave identically, so they differ only in the automatic
initialization step; both request bodies denote the same role and content
pairs, and the body sent is the entire transcript after the user append, in
insertion order. -/
theorem C5_entry_points_same_protocol (env : Env) (o : Oracle) (a : EchoAgent)
    (h : ClientHandle) (content : String) (hcl : a.client = some h) :
    process_with_ai env o a content = Except.ok (echo_message o a content) ∧
    formatted (echoRequestBody a) = processRequestBody a ∧
    processRequestBody (add_message a "user" content) =
      get_chat_history a ++ [("user", content)] := by
  refine ⟨?_, rfl, ?_⟩
  · unfold process_with_ai echo_message
    rw [hcl]
    cases hA : attemptCall o (add_message a "user" content)
        (processRequestBody (add_message a "user" content)) with
    | ok reply =>
      have hA2 : attemptCall o (add_message a "user" content)
          (formatted (echoRequestBody (add_message a "user" content))) =
          Except.ok reply := hA
      simp [hA, hA2]
    | error e =>
      have hA2 : attemptCall o (add_message a "user" content)
          (formatted (echoRequestBody (add_message a "user" content))) =
          Except.error e := hA
      simp [hA, hA2]
  · simp [processRequestBody, add_message, get_chat_history]

/-- Witness for C5_entry_points_same_protocol on a concrete initialized
agent. -/
theorem C5_entry_points_same_protocol_witness :
    process_with_ai (Env.mk none none none none) (fun _ _ => Except.ok "pong")
      (EchoAgent.mk [Message.mk "system" "s0"]
        (some (AzureAIConfig.mk "k" "b" "v" "d"))
        (some (ClientHandle.mk "k" "v" "b"))) "hello" =
      Except.ok (echo_message (fun _ _ => Except.ok "pong")
        (EchoAgent.mk [Message.mk "system" "s0"]
          (some (AzureAIConfig.mk "k" "b" "v" "d"))
          (some (ClientHandle.mk "k" "v" "b"))) "hello") ∧
    formatted (echoRequestBody
      (EchoAgent.mk [Message.mk "system" "s0"]
        (some (AzureAIConfig.mk "k" "b" "v" "d"))
        (some (ClientHandle.mk "k" "v" "b")))) =
      processRequestBody
        (EchoAgent.mk [Message.mk "system" "s0"]
          (some (AzureAIConfig.mk "k" "b" "v" "d"))
          (some (ClientHandle.mk "k" "v" "b"))) ∧
    processRequestBody (add_message
      (EchoAgent.mk [Message.mk "system" "s0"]
        (some (AzureAIConfig.mk "k" "b" "v" "d"))
        (some (ClientHandle.mk "k" "v" "b"))) "user" "hello") =
      get_chat_history
        (EchoAgent.mk [Message.mk "system" "s0"]
          (some (AzureAIConfig.mk "k" "b" "v" "d"))
          (some (ClientHandle.mk "k" "v" "b"))) ++ [("user", "hello")] :=
  C5_entry_points_same_protocol (Env.mk none none none none)
    (fun _ _ => Except.ok "pong")
    (EchoAgent.mk [Message.mk "system" "s0"]
      (some (AzureAIConfig.mk "k" "b" "v" "d"))
      (some (ClientHandle.mk "k" "v" "b")))
    (ClientHandle.mk "k" "v" "b") "hello" rfl

/-! ## Claim C6 -/

lemma get_chat_history_appendAll (ps : List (String × String)) (a : EchoAgent) :
    get_chat_history (appendAll a ps) = get_chat_history a ++ ps := by
  induction ps generalizing a with
  | nil => simp [appendAll]
  | cons p ps ih =>
    rw [appendAll, ih]
    simp [get_chat_history, add_message]

/-- Claim C6: after any sequence of add_message calls with valid roles on a
fresh store, get_chat_history returns exactly the appended role and content
pairs, as plain data, in insertion order, with nothing lost, reordered or
altered. -/
theorem C6_snapshot_insertion_order (ps : List (String × String))
    (hvalid : ∀ p ∈ ps, p.1 = "system" ∨ p.1 = "user" ∨ p.1 = "assistant") :
    get_chat_history (appendAll (EchoAgent.mk [] none none) ps) = ps := by
  rw [get_chat_history_appendAll]
  simp [get_chat_history]

/-- Witness for C6_snapshot_insertion_order on a concrete three-step
sequence. -/
theorem C6_snapshot_insertion_order_witness :
    get_chat_history (appendAll (EchoAgent.mk [] none none)
      [("system", "s0"), ("user", "hi"), ("assistant", "ok")]) =
      [("system", "s0"), ("user", "hi"), ("assistant", "ok")] :=
  C6_snapshot_insertion_order
    [("system", "s0"), ("user", "hi"), ("assistant", "ok")] (by decide)

/-! ## Claim C2 -/

/-- Claim C2: when no explicit config was supplied and at least one of the
four required environment values is absent, initialization fails with the
message listing the missing variables; the missing list names a variable
exactly when its value is falsy, contains nothing but the four known names,
and the object is left unchanged, so no client handle is created. -/
theorem C2_missing_config_enumerated (env : Env) (a : EchoAgent)
    (hcf : a.config = none) (hm : missingVars env ≠ []) :
    initAgent env a = Except.error (missingMsg (missingVars env)) ∧
    initStateOf env a = a ∧
    ("AZURE_OPENAI_API_KEY" ∈ missingVars env ↔ pyFalsy env.apiKey = true) ∧
    ("AZURE_OPENAI_API_BASE" ∈ missingVars env ↔ pyFalsy env.apiBase = true) ∧
    ("AZURE_OPENAI_API_VERSION" ∈ missingVars env ↔ pyFalsy env.apiVersion = true) ∧
    ("AZURE_OPENAI_DEPLOYMENT_NAME" ∈ missingVars env ↔
      pyFalsy env.deploymentName = true) ∧
    (∀ n ∈ missingVars env,
      n = "AZURE_OPENAI_API_KEY" ∨ n = "AZURE_OPENAI_API_BASE" ∨
      n = "AZURE_OPENAI_API_VERSION" ∨ n = "AZURE_OPENAI_DEPLOYMENT_NAME") := by
  have hE : (missingVars env).isEmpty = false := by
    simp [List.isEmpty_iff, hm]
  have h1 : initAgent env a = Except.error (missingMsg (missingVars env)) := by
    unfold initAgent
    simp [hcf, hE]
  refine ⟨h1, ?_, ?_, ?_, ?_, ?_, ?_⟩
  · unfold initStateOf
    rw [h1]
  · cases hk : pyFalsy env.apiKey <;> simp [missingVars, hk]
  · cases hb : pyFalsy env.apiBase <;> simp [missingVars, hb]
  · cases hv : pyFalsy env.apiVersion <;> simp [missingVars, hv]
  · cases hd : pyFalsy env.deploymentName <;> simp [missingVars, hd]
  · intro n hn
    simp [missingVars] at hn
    rcases hn with ⟨-, rfl⟩ | ⟨-, rfl⟩ | ⟨-, rfl⟩ | ⟨-, rfl⟩ <;> simp

/-- Witness for C2_missing_config_enumerated on the empty environment. -/
theorem C2_missing_config_enumerated_witness :
    initAgent (Env.mk none none none none) (EchoAgent.mk [] none none) =
      Except.error (missingMsg (missingVars (Env.mk none none none none))) ∧
    initStateOf (Env.mk none none none none) (EchoAgent.mk [] none none) =
      EchoAgent.mk [] none none ∧
    ("AZURE_OPENAI_API_KEY" ∈ missingVars (Env.mk none none none none) ↔
      pyFalsy (Env.mk none none none none).apiKey = true) ∧
    ("AZURE_OPENAI_API_BASE" ∈ missingVars (Env.mk none none none none) ↔
      pyFalsy (Env.mk none none none none).apiBase = true) ∧
    ("AZURE_OPENAI_API_VERSION" ∈ missingVars (Env.mk none none none none) ↔
      pyFalsy (Env.mk none none none none).apiVersion = true) ∧
    ("AZURE_OPENAI_DEPLOYMENT_NAME" ∈ missingVars (Env.mk none none none none) ↔
      pyFalsy (Env.mk none none none none).deploymentName = true) ∧
    (∀ n ∈ missingVars (Env.mk none none none none),
      n = "AZURE_OPENAI_API_KEY" ∨ n = "AZURE_OPENAI_API_BASE" ∨
      n = "AZURE_OPENAI_API_VERSION" ∨ n = "AZURE_OPENAI_DEPLOYMENT_NAME") :=
  C2_missing_config_enumerated (Env.mk none none none none)
    (EchoAgent.mk [] none none) rfl (by decide)

/-! ## Claim C7 -/

lemma process_preserves_ready (env : Env) (o : Oracle) (a : EchoAgent)
    (c : String) (h : ClientHandle) (hcl : a.client = some h) :
    (stateOf (process_with_ai env o a c)).client = some h ∧
    (stateOf (process_with_ai env o a c)).config = a.config := by
  unfold process_with_ai
  rw [hcl]
  cases hA : attemptCall o (add_message a "user" c)
      (processRequestBody (add_message a "user" c)) with
  | ok reply =>
    simp only [hA, stateOf, add_message_client, add_message_config]
    exact ⟨hcl, trivial⟩
  | error e =>
    simp only [hA, stateOf, add_message_client, add_message_config]
    exact ⟨hcl, trivial⟩

lemma process_fresh_ready (env : Env) (o : Oracle) (a : EchoAgent) (c : String)
    (hm : missingVars env = []) (hcl : a.client = none) (hcf : a.config = none) :
    (stateOf (process_with_ai env o a c)).client =
      some (clientOf (envConfig env)) ∧
    (stateOf (process_with_ai env o a c)).config = some (envConfig env) := by
  unfold process_with_ai initAgent
  rw [hcl, hcf]
  have hE : (missingVars env).isEmpty = true := by
    simp [List.isEmpty_iff, hm]
  rw [hE]
  simp only [if_true]
  cases hA : attemptCall o
      (add_message (EchoAgent.mk a.messages (some (envConfig env))
        (some (clientOf (envConfig env)))) "user" c)
      (processRequestBody
        (add_message (EchoAgent.mk a.messages (some (envConfig env))
          (some (clientOf (envConfig env)))) "user" c)) with
  | ok reply => simp [hA, stateOf, add_message]
  | error e => simp [hA, stateOf, add_message]

lemma runStates_all_ready (env : Env) (steps : List (Oracle × String))
    (a : EchoAgent)
    (ha : a.client = some (clientOf (envConfig env)))
    (hc : a.config = some (envConfig env)) :
    ∀ b ∈ runStates env a steps,
      b.client = some (clientOf (envConfig env)) ∧
      b.config = some (envConfig env) := by
  induction steps generalizing a with
  | nil =>
    intro b hb
    simp [runStates] at hb
    rw [hb]
    exact ⟨ha, hc⟩
  | cons s rest ih =>
    intro b hb
    rw [runStates] at hb
    rcases List.mem_cons.mp hb with hb | hb
    · rw [hb]
      exact ⟨ha, hc⟩
    · have hp := process_preserves_ready env s.1 a s.2 (clientOf (envConfig env)) ha
      exact ih (stateOf (process_with_ai env s.1 a s.2)) hp.1 (hc ▸ hp.2) b hb

lemma runStates_tail_ready (env : Env) (a : EchoAgent)
    (steps : List (Oracle × String))
    (hm : missingVars env = []) (hcl : a.client = none) (hcf : a.config = none) :
    ∀ b ∈ (runStates env a steps).tail,
      b.client = some (clientOf (envConfig env)) ∧
      b.config = some (envConfig env) := by
  cases steps with
  | nil =>
    intro b hb
    simp [runStates] at hb
  | cons s rest =>
    intro b hb
    rw [runStates] at hb
    simp only [List.tail_cons] at hb
    have hp := process_fresh_ready env s.1 a s.2 hm hcl hcf
    exact runStates_all_ready env rest _ hp.1 hp.2 b hb

/-- Claim C7: starting from a never-initialized session and an environment
holding all four values, the client transitions from absent to the handle
built from the environment on the first process_with_ai call, and every later
state in the trace carries that same handle and config: initialization happens
exactly once and later calls find the client present and keep it. -/
theorem C7_auto_init_exactly_once (env : Env) (a : EchoAgent)
    (steps : List (Oracle × String))
    (hm : missingVars env = []) (hcl : a.client = none) (hcf : a.config = none) :
    ((runStates env a steps).tail.all
      (fun b => b.client == some (clientOf (envConfig env)) &&
        b.config == some (envConfig env))) = true := by
  rw [List.all_eq_true]
  intro b hb
  have hr := runStates_tail_ready env a steps hm hcl hcf b hb
  simp [hr.1, hr.2]

/-- Witness for C7_auto_init_exactly_once: a complete environment, a fresh
agent and two calls, one replying and one failing. -/
theorem C7_auto_init_exactly_once_witness :
    ((runStates (Env.mk (some "k") (some "b") (some "v") (some "d"))
      (EchoAgent.mk [] none none)
      [(fun _ _ => Except.ok "pong", "hi"),
       (fun _ _ => Except.error "boom", "again")]).tail.all
      (fun b => b.client == some (clientOf (envConfig
          (Env.mk (some "k") (some "b") (some "v") (some "d")))) &&
        b.config == some (envConfig
          (Env.mk (some "k") (some "b") (some "v") (some "d"))))) = true :=
  C7_auto_init_exactly_once (Env.mk (some "k") (some "b") (some "v") (some "d"))
    (EchoAgent.mk [] none none)
    [(fun _ _ => Except.ok "pong", "hi"),
     (fun _ _ => Except.error "boom", "again")]
    (by decide) rfl rfl

/-! ## Claim C9 -/

/-- Claim C9: every operation preserves the append-only transcript invariant:
add_message extends the list by exactly its one new message, both submit entry
points leave the previous transcript as a prefix of the new one, the
initialization step never touches the transcript, and get_chat_history reads
it without modification. -/
theorem C9_transcript_append_only (env : Env) (o : Oracle) (a : EchoAgent)
    (r c s : String) :
    (add_message a r c).messages = a.messages ++ [Message.mk r c] ∧
    (add_message a r c).messages.length = a.messages.length + 1 ∧
    a.messages <+: (echo_message o a s).1.messages ∧
    a.messages <+: (stateOf (process_with_ai env o a s)).messages ∧
    (initStateOf env a).messages = a.messages ∧
    get_chat_history a = a.messages.map (fun m => (m.role, m.content)) := by
  refine ⟨rfl, by simp [add_message], ?_, ?_, initStateOf_messages env a, rfl⟩
  · unfold echo_message
    cases hA : attemptCall o (add_message a "user" s)
        (formatted (echoRequestBody (add_message a "user" s))) with
    | ok reply =>
      simp only [hA, add_message_messages]
      exact prefix_two a.messages (Message.mk "user" s) (Message.mk "assistant" reply)
    | error e =>
      simp only [hA, add_message_messages]
      exact prefix_two a.messages (Message.mk "user" s) (Message.mk "system" (errText e))
  · unfold process_with_ai
    cases hc : a.client with
    | some h =>
      cases hA : attemptCall o (add_message a "user" s)
          (processRequestBody (add_message a "user" s)) with
      | ok reply =>
        simp only [hA, stateOf, add_message_messages]
        exact prefix_two a.messages (Message.mk "user" s) (Message.mk "assistant" reply)
      | error e =>
        simp only [hA, stateOf, add_message_messages]
        exact prefix_two a.messages (Message.mk "user" s) (Message.mk "system" (errText e))
    | none =>
      cases hI : initAgent env a with
      | error e => simp [hI, stateOf]
      | ok a0 =>
        have hmsg := initAgent_ok_messages env a a0 hI
        cases hA : attemptCall o (add_message a0 "user" s)
            (processRequestBody (add_message a0 "user" s)) with
        | ok reply =>
          simp only [hI, hA, stateOf, add_message_messages, hmsg]
          exact prefix_two a.messages (Message.mk "user" s)
            (Message.mk "assistant" reply)
        | error e =>
          simp only [hI, hA, stateOf, add_message_messages, hmsg]
          exact prefix_two a.messages (Message.mk "user" s)
            (Message.mk "system" (errText e))
